import Mathlib

/-!
Verification of the OAuth backend (Express + better-sqlite3).

This file shallowly embeds the parts of the repository that the verified
properties talk about:

* the JavaScript string builtins the routes use
  (`encodeURIComponent` / `decodeURIComponent`, `JSON.stringify` /
  `JSON.parse`, `String.prototype.replace` with a string pattern);
* the credential store from `db.js` (`social_accounts` schema and
  `saveAccount`), with SQLite statement-preparation semantics for the
  `ON CONFLICT` clause and SQLite's NaN-to-NULL coercion on binding;
* the route handlers from `routes/*.js` (the five OAuth callbacks and the
  credential exposure endpoint), with provider HTTP responses supplied as
  oracle data.

JavaScript strings are modelled as `List Char` (sequences of Unicode scalar
values; lone surrogates, on which `encodeURIComponent` throws, are outside
the model).  JavaScript `undefined` and `null` are both modelled as
`Json.null`; the distinction only affects better-sqlite3 binding errors on
paths no verified property exercises.
-/

namespace OAuthBackend

abbrev Str := List Char

/-! ## Hexadecimal digits -/
/-- Upper-case hex digit, as emitted by `encodeURIComponent` (`%XX`). -/
def hexChar (n : Nat) : Char :=
  if n < 10 then Char.ofNat (48 + n) else Char.ofNat (55 + n)

/-- Value of a hex digit character; accepts both cases, as
`decodeURIComponent` does. -/
def hexDigitVal (c : Char) : Option Nat :=
  if 48 ≤ c.toNat ∧ c.toNat ≤ 57 then some (c.toNat - 48)
  else if 65 ≤ c.toNat ∧ c.toNat ≤ 70 then some (c.toNat - 55)
  else if 97 ≤ c.toNat ∧ c.toNat ≤ 102 then some (c.toNat - 87)
  else none

/-! ## UTF-8 encoding of a scalar value -/
/-- The UTF-8 bytes of a character (standard 1-4 byte encoding of its
scalar value). -/
def utf8Bytes (c : Char) : List Nat :=
  let n := c.toNat
  if n < 128 then [n]
  else if n < 2048 then [192 + n / 64, 128 + n % 64]
  else if n < 65536 then [224 + n / 4096, 128 + n / 64 % 64, 128 + n % 64]
  else [240 + n / 262144, 128 + n / 4096 % 64, 128 + n / 64 % 64, 128 + n % 64]

/-- Percent-encoding `%XX` of one byte. -/
def percentByte (b : Nat) : Str := ['%', hexChar (b / 16), hexChar (b % 16)]

/-! ## encodeURIComponent -/
/-- Characters `encodeURIComponent` leaves unescaped:
`A-Z a-z 0-9 - _ . ! ~ * ' ( )`. -/
def uriUnreserved (c : Char) : Bool :=
  let n := c.toNat
  (65 ≤ n && n ≤ 90) || (97 ≤ n && n ≤ 122) || (48 ≤ n && n ≤ 57) ||
  n == 45 || n == 95 || n == 46 || n == 33 || n == 126 || n == 42 ||
  n == 39 || n == 40 || n == 41

/-- One character of `encodeURIComponent`: unreserved characters pass through,
everything else becomes the percent-encoding of its UTF-8 bytes. -/
def encodeURIComponentChar (c : Char) : Str :=
  if uriUnreserved c then [c] else ((utf8Bytes c).map percentByte).flatten

/-- The JavaScript builtin `encodeURIComponent` on a well-formed string. -/
def encodeURIComponentFn (s : Str) : Str := (s.map encodeURIComponentChar).flatten

/-! ## decodeURIComponent

`decodeURIComponent` throws `URIError` on malformed percent sequences and
malformed UTF-8; the model returns `none` there.  (Overlong encodings above
U+007F are accepted leniently; no verified property depends on them.) -/
/-- Read one `%XX` byte. -/
def readPercentByte : Str → Option (Nat × Str)
  | c :: h1 :: h2 :: rest =>
    if c = '%' then
      match hexDigitVal h1, hexDigitVal h2 with
      | some a, some b => some (16 * a + b, rest)
      | _, _ => none
    else none
  | _ => none

/-- Read one `%XX` continuation byte (`0x80`-`0xBF`). -/
def contByteVal (s : Str) : Option (Nat × Str) :=
  match readPercentByte s with
  | some (b, r) => if 128 ≤ b ∧ b < 192 then some (b, r) else none
  | none => none

/-- Decode one logical character: either a literal character or a complete
percent-encoded UTF-8 sequence. -/
def decodeOne : Str → Option (Char × Str)
  | [] => none
  | c :: rest =>
    if c = '%' then
      match readPercentByte (c :: rest) with
      | none => none
      | some (b0, r0) =>
        if b0 < 128 then some (Char.ofNat b0, r0)
        else if b0 < 192 then none
        else if b0 < 224 then
          match contByteVal r0 with
          | some (b1, r1) =>
            let n := (b0 - 192) * 64 + (b1 - 128)
            if 127 < n then some (Char.ofNat n, r1) else none
          | none => none
        else if b0 < 240 then
          match contByteVal r0 with
          | some (b1, r1) =>
            match contByteVal r1 with
            | some (b2, r2) =>
              let n := (b0 - 224) * 4096 + (b1 - 128) * 64 + (b2 - 128)
              if 2047 < n ∧ (n < 55296 ∨ 57343 < n) then some (Char.ofNat n, r2)
              else none
            | none => none
          | none => none
        else if b0 < 248 then
          match contByteVal r0 with
          | some (b1, r1) =>
            match contByteVal r1 with
            | some (b2, r2) =>
              match contByteVal r2 with
              | some (b3, r3) =>
                let n := (b0 - 240) * 262144 + (b1 - 128) * 4096 +
                  (b2 - 128) * 64 + (b3 - 128)
                if 65535 < n ∧ n < 1114112 then some (Char.ofNat n, r3) else none
              | none => none
            | none => none
          | none => none
        else none
    else some (c, rest)

/-- Fuelled decoding loop; fuel at least the decoded length suffices. -/
def decodeLoop : Nat → Str → Option Str
  | _, [] => some []
  | 0, _ :: _ => none
  | fuel + 1, c :: rest =>
    match decodeOne (c :: rest) with
    | some (ch, r) =>
      match decodeLoop fuel r with
      | some t => some (ch :: t)
      | none => none
    | none => none

/-- The JavaScript builtin `decodeURIComponent`; `none` models a thrown
`URIError`. -/
def decodeURIComponentFn (s : Str) : Option Str := decodeLoop s.length s

/-! ## JSON values

JSON numbers are modelled as integers: every number the routes produce or
consume through `JSON.stringify` / `JSON.parse` in the verified scenarios is
integral, and no verified property depends on fractional parsing. -/
inductive Json where
  | null
  | bool (b : Bool)
  | num (n : Int)
  | str (s : Str)
  | arr (elems : List Json)
  | obj (fields : List (Str × Json))

mutual

/-- Structural equality on JSON values (used to model SQLite value equality
on the columns the routes bind). -/
def jsonBEq : Json → Json → Bool
  | .null, .null => true
  | .bool a, .bool b => a == b
  | .num a, .num b => a == b
  | .str a, .str b => a == b
  | .arr a, .arr b => jsonListBEq a b
  | .obj a, .obj b => jsonFieldsBEq a b
  | _, _ => false

/-- Elementwise equality of JSON arrays. -/
def jsonListBEq : List Json → List Json → Bool
  | [], [] => true
  | x :: xs, y :: ys => jsonBEq x y && jsonListBEq xs ys
  | _, _ => false

/-- Elementwise equality of JSON object field lists. -/
def jsonFieldsBEq : List (Str × Json) → List (Str × Json) → Bool
  | [], [] => true
  | (k1, v1) :: xs, (k2, v2) :: ys => k1 == k2 && jsonBEq v1 v2 && jsonFieldsBEq xs ys
  | _, _ => false

end

/-! ## JSON.stringify string quoting -/
/-- Lower-case hex digit, as used by `JSON.stringify` in `\u00XX` escapes. -/
def hexCharLower (n : Nat) : Char :=
  if n < 10 then Char.ofNat (48 + n) else Char.ofNat (87 + n)

/-- One character of a `JSON.stringify`-quoted string: `"` and `\` are
backslash-escaped, the named control escapes are used for `\b \t \n \f \r`,
other control characters become `\u00XX`, and everything else passes
through. -/
def jsonEscapeChar (c : Char) : Str :=
  if c = '"' then ['\\', '"']
  else if c = '\\' then ['\\', '\\']
  else if c.toNat = 8 then ['\\', 'b']
  else if c.toNat = 9 then ['\\', 't']
  else if c.toNat = 10 then ['\\', 'n']
  else if c.toNat = 12 then ['\\', 'f']
  else if c.toNat = 13 then ['\\', 'r']
  else if c.toNat < 32 then
    ['\\', 'u', '0', '0', hexCharLower (c.toNat / 16), hexCharLower (c.toNat % 16)]
  else [c]

def jsonEscape (s : Str) : Str := (s.map jsonEscapeChar).flatten

/-- Image of a string value under `JSON.stringify`. -/
def jsonQuote (s : Str) : Str := '"' :: (jsonEscape s ++ ['"'])

/-! ## JSON.parse

A recursive-descent model of `JSON.parse`; `none` models a thrown
`SyntaxError`.  Deliberate simplifications, none load-bearing for the
verified properties: numbers are parsed as optionally signed digit runs,
and `\uXXXX` escapes denoting surrogate halves are rejected rather than
paired. -/
def isJsonWs (c : Char) : Bool :=
  c.toNat == 32 || c.toNat == 9 || c.toNat == 10 || c.toNat == 13

def skipWs : Str → Str
  | [] => []
  | c :: r => if isJsonWs c then skipWs r else c :: r

/-- Body of a JSON string literal, after the opening quote. -/
def parseStringBody : Str → Option (Str × Str)
  | [] => none
  | c :: r =>
    if c = '"' then some ([], r)
    else if c = '\\' then
      match r with
      | [] => none
      | e :: r2 =>
        if e = '"' then (parseStringBody r2).map (fun p => ('"' :: p.1, p.2))
        else if e = '\\' then (parseStringBody r2).map (fun p => ('\\' :: p.1, p.2))
        else if e = '/' then (parseStringBody r2).map (fun p => ('/' :: p.1, p.2))
        else if e = 'b' then (parseStringBody r2).map (fun p => (Char.ofNat 8 :: p.1, p.2))
        else if e = 'f' then (parseStringBody r2).map (fun p => (Char.ofNat 12 :: p.1, p.2))
        else if e = 'n' then (parseStringBody r2).map (fun p => (Char.ofNat 10 :: p.1, p.2))
        else if e = 'r' then (parseStringBody r2).map (fun p => (Char.ofNat 13 :: p.1, p.2))
        else if e = 't' then (parseStringBody r2).map (fun p => (Char.ofNat 9 :: p.1, p.2))
        else if e = 'u' then
          match r2 with
          | h1 :: h2 :: h3 :: h4 :: r3 =>
            match hexDigitVal h1, hexDigitVal h2, hexDigitVal h3, hexDigitVal h4 with
            | some a, some b, some cc, some d =>
              let n := 4096 * a + 256 * b + 16 * cc + d
              if n < 55296 ∨ 57343 < n then
                (parseStringBody r3).map (fun p => (Char.ofNat n :: p.1, p.2))
              else none
            | _, _, _, _ => none
          | _ => none
        else none
    else if c.toNat < 32 then none
    else (parseStringBody r).map (fun p => (c :: p.1, p.2))

/-- Leading decimal digits. -/
def parseDigits : Str → (List Nat × Str)
  | [] => ([], [])
  | c :: r =>
    if 48 ≤ c.toNat ∧ c.toNat ≤ 57 then
      let p := parseDigits r
      ((c.toNat - 48) :: p.1, p.2)
    else ([], c :: r)

def digitsToNat (ds : List Nat) : Nat := ds.foldl (fun a d => 10 * a + d) 0

/-- Optionally signed integer literal. -/
def parseIntLit : Str → Option (Int × Str)
  | [] => none
  | c :: r =>
    if c = '-' then
      match parseDigits r with
      | ([], _) => none
      | (ds, rr) => some (-(digitsToNat ds : Int), rr)
    else
      match parseDigits (c :: r) with
      | ([], _) => none
      | (ds, rr) => some ((digitsToNat ds : Int), rr)

mutual

/-- JSON value (leading whitespace allowed). -/
def parseVal : Nat → Str → Option (Json × Str)
  | 0, _ => none
  | fuel + 1, s =>
    match skipWs s with
    | [] => none
    | c :: r =>
      if c = '"' then
        match parseStringBody r with
        | some (u, rr) => some (Json.str u, rr)
        | none => none
      else if c = '{' then
        match skipWs r with
        | c2 :: r2 =>
          if c2 = '}' then some (Json.obj [], r2)
          else
            match parseMembers fuel (c2 :: r2) with
            | some (fs, rr) => some (Json.obj fs, rr)
            | none => none
        | [] => none
      else if c = '[' then
        match skipWs r with
        | c2 :: r2 =>
          if c2 = ']' then some (Json.arr [], r2)
          else
            match parseElems fuel (c2 :: r2) with
            | some (xs, rr) => some (Json.arr xs, rr)
            | none => none
        | [] => none
      else if c = 't' then
        match r with
        | 'r' :: 'u' :: 'e' :: rr => some (Json.bool true, rr)
        | _ => none
      else if c = 'f' then
        match r with
        | 'a' :: 'l' :: 's' :: 'e' :: rr => some (Json.bool false, rr)
        | _ => none
      else if c = 'n' then
        match r with
        | 'u' :: 'l' :: 'l' :: rr => some (Json.null, rr)
        | _ => none
      else
        match parseIntLit (c :: r) with
        | some (n, rr) => some (Json.num n, rr)
        | none => none

/-- Nonempty member list of a JSON object, starting at the key quote. -/
def parseMembers : Nat → Str → Option (List (Str × Json) × Str)
  | 0, _ => none
  | fuel + 1, s =>
    match s with
    | [] => none
    | c :: r =>
      if c = '"' then
        match parseStringBody r with
        | some (key, r1) =>
          match skipWs r1 with
          | c2 :: r2 =>
            if c2 = ':' then
              match parseVal fuel r2 with
              | some (v, r3) =>
                match skipWs r3 with
                | c3 :: r4 =>
                  if c3 = ',' then
                    match parseMembers fuel (skipWs r4) with
                    | some (fs, rr) => some ((key, v) :: fs, rr)
                    | none => none
                  else if c3 = '}' then some ([(key, v)], r4)
                  else none
                | [] => none
              | none => none
            else none
          | [] => none
        | none => none
      else none

/-- Nonempty element list of a JSON array. -/
def parseElems : Nat → Str → Option (List Json × Str)
  | 0, _ => none
  | fuel + 1, s =>
    match parseVal fuel s with
    | some (v, r) =>
      match skipWs r with
      | c :: r2 =>
        if c = ',' then
          match parseElems fuel r2 with
          | some (xs, rr) => some (v :: xs, rr)
          | none => none
        else if c = ']' then some ([v], r2)
        else none
      | [] => none
    | none => none

end

/-- The JavaScript builtin `JSON.parse`; `none` models a thrown
`SyntaxError`.  The fuel `s.length + 1` dominates the nesting depth, which
consumes at least one character per level. -/
def jsonParse (s : Str) : Option Json :=
  match parseVal (s.length + 1) s with
  | some (v, rest) => if skipWs rest = [] then some v else none
  | none => none

/-! ## The state codec of the routes

`routes/*.js` line for `start`:
`const state = encodeURIComponent(JSON.stringify({ user_id }));`
and for the callback:
`const parsedState = state ? JSON.parse(decodeURIComponent(state)) : {};`. -/
/-- Image `JSON.stringify(\x7b user_id: u \x7d)` for a string `u`: the fixed object
frame around the quoted string. -/
def stringifyUserState (u : Str) : Str :=
  ("\x7b\"user_id\":" : String).data ++ (jsonQuote u ++ ("\x7d" : String).data)

/-- The encoded `state` query value built by every `/auth/:provider/start`
route. -/
def encodeState (u : Str) : Str := encodeURIComponentFn (stringifyUserState u)

/-! ## JavaScript runtime values and errors -/
/-- Exceptions the modelled code can throw. -/
inductive JsErr where
  | uriError      -- malformed URI in `decodeURIComponent`
  | syntaxError   -- `JSON.parse` failure
  | typeError     -- property access on `null`/`undefined`
  | sqliteError   -- thrown by better-sqlite3
deriving DecidableEq

/-- JavaScript truthiness of a JSON value. -/
def jsTruthy : Json → Bool
  | .null => false
  | .bool b => b
  | .num n => n != 0
  | .str s => !s.isEmpty
  | .arr _ => true
  | .obj _ => true

/-- Last-wins field lookup (`JSON.parse` keeps the last duplicate key). -/
def lookupField (fields : List (Str × Json)) (key : Str) : Option Json :=
  match fields with
  | [] => none
  | (k, v) :: rest =>
    match lookupField rest key with
    | some w => some w
    | none => if k = key then some v else none

/-- Property access `j.key` as the callbacks use it on a parsed state:
accessing a property of `null` throws `TypeError`; on a non-object value
the result is `undefined` (`none`). -/
def jsGetField (j : Json) (key : Str) : Except JsErr (Option Json) :=
  match j with
  | .null => .error .typeError
  | .obj fields => .ok (lookupField fields key)
  | _ => .ok none

/-- Optional-chained access `j?.key`: no throw, `undefined` on non-objects. -/
def jsGetFieldOpt (j : Json) (key : Str) : Option Json :=
  match j with
  | .obj fields => lookupField fields key
  | _ => none

/-- Evaluation of `x || d` for a possibly-undefined value `x`. -/
def jsOr (x : Option Json) (d : Json) : Json :=
  match x with
  | some v => if jsTruthy v then v else d
  | none => d

/-- Rendering of a value inside a template literal (only strings are
interpolated on verified paths). -/
def jsDisplay : Json → Str
  | .str s => s
  | .num n => (toString n).data
  | .bool true => "true".data
  | .bool false => "false".data
  | .null => "null".data
  | .arr _ => []
  | .obj _ => "[object Object]".data

/-! ## The state decoding performed by every callback

`const parsedState = state ? JSON.parse(decodeURIComponent(state)) : {};`
`const userId = parsedState.user_id || 'unknown';` -/
def parseStateParam (state : Option Str) : Except JsErr Json :=
  match state with
  | none => .ok (Json.obj [])
  | some s =>
    if s.isEmpty then .ok (Json.obj [])
    else
      match decodeURIComponentFn s with
      | none => .error .uriError
      | some d =>
        match jsonParse d with
        | none => .error .syntaxError
        | some j => .ok j

/-- Access `parsedState.user_id` (throws `TypeError` when the state decoded to the
JSON literal `null`). -/
def stateRawUserId (state : Option Str) : Except JsErr (Option Json) :=
  match parseStateParam state with
  | .error e => .error e
  | .ok parsed => jsGetField parsed "user_id".data

/-- Fallback `parsedState.user_id || 'unknown'`. -/
def callbackUserId (raw : Option Json) : Json := jsOr raw (Json.str "unknown".data)

/-- The full state decode of the callbacks (lines 262-263 of the source):
the recovered user identifier, or the exception the decode throws. -/
def decodeStateUserId (state : Option Str) : Except JsErr Json :=
  match stateRawUserId state with
  | .error e => .error e
  | .ok raw => .ok (callbackUserId raw)

/-! ## The credential store (`db.js`) -/
/-- A JavaScript numeric expression reaching a SQLite binding. -/
inductive JsNumber where
  | int (n : Int)
  | nan
  | nullv
deriving DecidableEq

/-- SQLite has no NaN: binding NaN stores NULL. -/
def sqlBindNumber : JsNumber → Option Int
  | .int n => some n
  | .nan => none
  | .nullv => none

/-- The argument object of `saveAccount` (defaults as in `db.js`). -/
structure SaveArgs where
  userId : Json
  platform : Str
  platformUserId : Json
  accessToken : Json
  refreshToken : Json := Json.null
  meta : Option Json := none
  expiresAt : JsNumber := .nullv

/-- A row of `social_accounts`.  `meta` is stored in the database as
`meta ? JSON.stringify(meta) : null` and re-parsed by the readers; it is
modelled unserialised. -/
structure Row where
  rowid : Nat
  user_id : Json
  platform : Str
  platform_user_id : Json
  access_token : Json
  refresh_token : Json
  meta : Option Json
  expires_at : Option Int
  created_at : Int

abbrev Store := List Row

def nextRowId (st : Store) : Nat := (st.map Row.rowid).foldr max 0 + 1

/-- Column sets carrying a uniqueness constraint in
`CREATE TABLE social_accounts`: only the `INTEGER PRIMARY KEY` column `id`.
The schema declares no unique constraint on `(user_id, platform)`. -/
def socialAccountsUniqueKeys : List (List String) := [["id"]]

/-- The conflict target named by `saveAccount`'s
`ON CONFLICT(user_id, platform)` clause. -/
def saveAccountConflictTarget : List String := ["user_id", "platform"]

/-- Storage form `meta ? JSON.stringify(meta) : null`, composed with the readers'
re-parse: falsy meta values store NULL. -/
def storedMeta (m : Option Json) : Option Json :=
  match m with
  | some v => if jsTruthy v then some v else none
  | none => none

/-- The row a non-conflicting insert produces (`created_at` defaults to the
insertion time, the rowid is fresh). -/
def insertRow (now : Int) (st : Store) (a : SaveArgs) : Row :=
  { rowid := nextRowId st
    user_id := a.userId
    platform := a.platform
    platform_user_id := a.platformUserId
    access_token := a.accessToken
    refresh_token := a.refreshToken
    meta := storedMeta a.meta
    expires_at := sqlBindNumber a.expiresAt
    created_at := now }

/-- The `DO UPDATE SET` clause applied to the conflicting row: every listed
column is replaced from `excluded`; `id`, `user_id`, `platform` and
`created_at` are untouched. -/
def updateRow (a : SaveArgs) (r : Row) : Row :=
  { r with
    platform_user_id := a.platformUserId
    access_token := a.accessToken
    refresh_token := a.refreshToken
    meta := storedMeta a.meta
    expires_at := sqlBindNumber a.expiresAt }

/-- SQLite value equality on the conflict-target columns. -/
def rowMatchesKey (a : SaveArgs) (r : Row) : Bool :=
  jsonBEq r.user_id a.userId && r.platform == a.platform

/-- Update the (single) conflicting row in place. -/
def updateFirstMatch (a : SaveArgs) : Store → Store
  | [] => []
  | r :: rs => if rowMatchesKey a r then updateRow a r :: rs else r :: updateFirstMatch a rs

/-- The upsert statement of `saveAccount`, parameterised by the uniqueness
constraints the schema provides.  SQLite rejects the statement at
preparation time — "ON CONFLICT clause does not match any PRIMARY KEY or
UNIQUE constraint" — unless the conflict target matches one of them; the
rejection is thrown by `db.prepare` before any row is touched. -/
def upsertSocialAccounts (uniqueKeys : List (List String)) (now : Int) (st : Store)
    (a : SaveArgs) : Except JsErr Store :=
  if saveAccountConflictTarget ∈ uniqueKeys then
    match st.find? (rowMatchesKey a) with
    | some _ => .ok (updateFirstMatch a st)
    | none => .ok (st ++ [insertRow now st a])
  else .error .sqliteError

/-- Function `saveAccount` from `db.js`, run against the schema `db.js` creates. -/
def saveAccount (now : Int) (st : Store) (a : SaveArgs) : Except JsErr Store :=
  upsertSocialAccounts socialAccountsUniqueKeys now st a

/-- The same statement run against the schema its `ON CONFLICT` clause
presupposes, i.e. with `UNIQUE(user_id, platform)` declared; this is the
behaviour the conflict clause is written to produce. -/
def saveAccountIntended (now : Int) (st : Store) (a : SaveArgs) : Except JsErr Store :=
  upsertSocialAccounts (socialAccountsUniqueKeys ++ [saveAccountConflictTarget]) now st a

/-- Query `SELECT * FROM social_accounts WHERE user_id = ?`. -/
def getAccountsForUser (st : Store) (uid : Str) : List Row :=
  st.filter (fun r => jsonBEq r.user_id (Json.str uid))

/-! ## The credential exposure endpoint (`routes/credentials.js`) -/
/-- One value of the `tokens` map the endpoint returns. -/
structure TokenOut where
  access_token : Json
  refresh_token : Json
  platform_user_id : Json
  meta : Option Json

/-- JavaScript object assignment `tokens[k] = v`: later assignments to the
same key overwrite in place, first assignment fixes the position. -/
def setTokensKey (toks : List (Str × TokenOut)) (k : Str) (v : TokenOut) :
    List (Str × TokenOut) :=
  match toks with
  | [] => [(k, v)]
  | (k0, v0) :: rest =>
    if k0 = k then (k0, v) :: rest else (k0, v0) :: setTokensKey rest k v

def buildTokens (accounts : List Row) : List (Str × TokenOut) :=
  accounts.foldl
    (fun acc a =>
      setTokensKey acc a.platform
        ⟨a.access_token, a.refresh_token, a.platform_user_id, a.meta⟩)
    []

inductive CredResponse where
  | unauthorized
  | ok (userId : Str) (tokens : List (Str × TokenOut))

/-- Semantics of `String.prototype.replace` with a string pattern: replaces only the
first occurrence, returns the input unchanged when the pattern is absent. -/
def replaceFirst (pat repl : Str) : Str → Str
  | [] => if List.isPrefixOf pat [] then repl else []
  | c :: rest =>
    if List.isPrefixOf pat (c :: rest) then repl ++ List.drop pat.length (c :: rest)
    else c :: replaceFirst pat repl rest

/-- Handler of `GET /v1/users/:userId/credentials`:
`const serviceToken = req.get('Authorization')?.replace('Bearer ', '');`
`if (!serviceToken || serviceToken !== process.env.SERVICE_TOKEN) 401`. -/
def credentialsHandler (serviceTokenEnv : Option Str) (authHeader : Option Str)
    (userId : Str) (st : Store) : CredResponse :=
  match authHeader.map (replaceFirst ("Bearer " : String).data []) with
  | none => .unauthorized
  | some tok =>
    if tok.isEmpty then .unauthorized
    else if serviceTokenEnv = some tok then
      .ok userId (buildTokens (getAccountsForUser st userId))
    else .unauthorized

/-! ## Responses and handler outcomes -/
inductive Response where
  | send (body : Str)                   -- `res.send(...)` (HTTP 200)
  | error (status : Nat) (body : Str)   -- `res.status(status).send(...)`

/-- Result of running a callback handler: a sent response, or an exception
that escaped the handler (the four non-Meta routes parse the state outside
their `try` block, so a parse failure escapes). -/
inductive HandlerOut where
  | resp (r : Response) (st : Store)
  | thrown (e : JsErr) (st : Store)

abbrev SaveFn := Int → Store → SaveArgs → Except JsErr Store

/-! ## Expiry computations of the callbacks -/
/-- Meta long-lived token expiry (line 285):
`longRes.data.expires_in ? Math.floor(Date.now()/1000) + Number(...) : null`.
The guard tests JavaScript truthiness, so a reported `0` also yields
`null`. -/
def metaExpiresAt (now : Int) (expiresIn : Option Int) : JsNumber :=
  match expiresIn with
  | some d => if d ≠ 0 then .int (now + d) else .nullv
  | none => .nullv

/-- The unguarded expiry computation of the YouTube, X, Pinterest and
LinkedIn callbacks: `Math.floor(Date.now()/1000) + Number(expires_in)`.
`Number(undefined)` is NaN, so a missing duration produces NaN. -/
def plusNumber (now : Int) (expiresIn : Option Int) : JsNumber :=
  match expiresIn with
  | some d => .int (now + d)
  | none => .nan

/-! ## The Meta callback (`routes/meta.js`) -/
/-- One element of `pagesRes.data.data`. -/
structure MetaPage where
  id : Str
  name : Json
  access_token : Str

/-- The provider responses consumed by a successful run of the Meta
exchange chain, and the exchange completion instant. -/
structure MetaOracle where
  shortToken : Str
  longToken : Str
  longExpiresIn : Option Int
  pagesData : Option (List MetaPage)
  connectedInstagram : Option Str
  now : Int

def metaErrorBody : Str := "Error during Facebook OAuth".data

def noCodeProvidedBody : Str := "No code provided".data

def metaNoPagesBody : Str := "Connected to Facebook but no pages found.".data

def metaSuccessBody (userId : Json) (ig : Option Str) : Str :=
  "<h3>Connected successfully!</h3><p>User: ".data ++ jsDisplay userId ++
  ". Instagram ID: ".data ++
  (match ig with
   | some s => if s.isEmpty then "none".data else s
   | none => "none".data) ++ ".</p>".data

/-- Handler of `GET /auth/meta/callback`.  The whole handler body sits inside
`try { ... } catch`, so every thrown error (state parse, provider call,
store) surfaces as the 500 response.  Rows written before a later failure
stay written (SQLite autocommits per statement). -/
def metaCallback (save : SaveFn) (code state : Option Str) (o : MetaOracle)
    (st : Store) : HandlerOut :=
  match stateRawUserId state with
  | .error _ => .resp (.error 500 metaErrorBody) st
  | .ok rawUid =>
    let userId := callbackUserId rawUid
    match code with
    | none => .resp (.send noCodeProvidedBody) st
    | some _ =>
      let expiresAt := metaExpiresAt o.now o.longExpiresIn
      match o.pagesData.getD [] with
      | [] =>
        match save o.now st
          { userId := userId
            platform := "facebook".data
            platformUserId := jsOr rawUid Json.null
            accessToken := Json.str o.longToken
            refreshToken := Json.null
            meta := some (Json.obj [("note".data, Json.str "no-pages".data)])
            expiresAt := expiresAt } with
        | .error _ => .resp (.error 500 metaErrorBody) st
        | .ok st1 => .resp (.send metaNoPagesBody) st1
      | page :: _ =>
        match save o.now st
          { userId := userId
            platform := "facebook".data
            platformUserId := Json.str page.id
            accessToken := Json.str page.access_token
            refreshToken := Json.null
            meta := some (Json.obj [("page_name".data, page.name)])
            expiresAt := .nullv } with
        | .error _ => .resp (.error 500 metaErrorBody) st
        | .ok st1 =>
          match o.connectedInstagram with
          | some igId =>
            if igId.isEmpty then .resp (.send (metaSuccessBody userId (some igId))) st1
            else
              match save o.now st1
                { userId := userId
                  platform := "instagram".data
                  platformUserId := Json.str igId
                  accessToken := Json.str page.access_token
                  refreshToken := Json.null
                  meta := some (Json.obj [("linked_page".data, Json.str page.id)])
                  expiresAt := .nullv } with
              | .error _ => .resp (.error 500 metaErrorBody) st1
              | .ok st2 => .resp (.send (metaSuccessBody userId (some igId))) st2
          | none => .resp (.send (metaSuccessBody userId none)) st1

/-! ## The YouTube callback (`routes/youtube.js`) -/
structure YtChannel where
  id : Json
  snippet : Json

structure YoutubeOracle where
  access_token : Str
  refresh_token : Json
  expires_in : Option Int
  channel : Option YtChannel
  now : Int

def youtubeErrorBody : Str := "Error handling YouTube OAuth".data

def youtubeSuccessBody (channelId : Json) : Str :=
  "<h3>YouTube connected!</h3><p>Channel: ".data ++ jsDisplay channelId ++ "</p>".data

/-- Handler of `GET /auth/youtube/callback`: the state parse and the no-code guard run
before the `try` block, so a state parse failure escapes the handler. -/
def youtubeCallback (save : SaveFn) (code state : Option Str) (o : YoutubeOracle)
    (st : Store) : HandlerOut :=
  match stateRawUserId state with
  | .error e => .thrown e st
  | .ok rawUid =>
    let userId := callbackUserId rawUid
    match code with
    | none => .resp (.send noCodeProvidedBody) st
    | some _ =>
      let channelId := match o.channel with
        | some ch => ch.id
        | none => Json.null
      let snippetVal := match o.channel with
        | some ch => ch.snippet
        | none => Json.null
      match save o.now st
        { userId := userId
          platform := "youtube".data
          platformUserId := channelId
          accessToken := Json.str o.access_token
          refreshToken := o.refresh_token
          meta := some (Json.obj [("snippet".data, snippetVal)])
          expiresAt := plusNumber o.now o.expires_in } with
      | .error _ => .resp (.error 500 youtubeErrorBody) st
      | .ok st1 => .resp (.send (youtubeSuccessBody channelId)) st1

/-! ## The X callback (`routes/x.js`) -/
structure XOracle where
  access_token : Str
  refresh_token : Json
  expires_in : Option Int
  userIdData : Option Str
  now : Int

def xErrorBody : Str := "Error with X OAuth".data

def xSuccessBody : Str := "<h3>X connected!</h3>".data

def noCodeBody : Str := "No code".data

def xCallback (save : SaveFn) (code state : Option Str) (o : XOracle)
    (st : Store) : HandlerOut :=
  match stateRawUserId state with
  | .error e => .thrown e st
  | .ok rawUid =>
    let userId := callbackUserId rawUid
    match code with
    | none => .resp (.send noCodeBody) st
    | some _ =>
      let platformUserId := match o.userIdData with
        | some s => Json.str s
        | none => Json.null
      match save o.now st
        { userId := userId
          platform := "x".data
          platformUserId := platformUserId
          accessToken := Json.str o.access_token
          refreshToken := o.refresh_token
          meta := none
          expiresAt := plusNumber o.now o.expires_in } with
      | .error _ => .resp (.error 500 xErrorBody) st
      | .ok st1 => .resp (.send xSuccessBody) st1

/-! ## The Pinterest callback (`routes/pinterest.js`) -/
structure PinterestOracle where
  access_token : Str
  refresh_token : Json
  expires_in : Option Int
  meData : Json
  now : Int

def pinterestErrorBody : Str := "Pinterest OAuth Error".data

def pinterestSuccessBody : Str := "<h3>Pinterest connected!</h3>".data

def pinterestCallback (save : SaveFn) (code state : Option Str) (o : PinterestOracle)
    (st : Store) : HandlerOut :=
  match stateRawUserId state with
  | .error e => .thrown e st
  | .ok rawUid =>
    let userId := callbackUserId rawUid
    match code with
    | none => .resp (.send noCodeBody) st
    | some _ =>
      let platformUserId := match jsGetFieldOpt o.meData "id".data with
        | some v => v
        | none => Json.null
      match save o.now st
        { userId := userId
          platform := "pinterest".data
          platformUserId := platformUserId
          accessToken := Json.str o.access_token
          refreshToken := o.refresh_token
          meta := some o.meData
          expiresAt := plusNumber o.now o.expires_in } with
      | .error _ => .resp (.error 500 pinterestErrorBody) st
      | .ok st1 => .resp (.send pinterestSuccessBody) st1

/-! ## The LinkedIn callback (`routes/linkedin.js`) -/
structure LinkedinOracle where
  access_token : Str
  expires_in : Option Int
  profileData : Json
  now : Int

def linkedinErrorBody : Str := "LinkedIn OAuth Error".data

def linkedinSuccessBody : Str := "<h3>LinkedIn connected!</h3>".data

/-- Handler of `GET /auth/linkedin/callback`: `profile.data.id` uses no optional
chaining, so a null profile body throws inside the `try` (500). -/
def linkedinCallback (save : SaveFn) (code state : Option Str) (o : LinkedinOracle)
    (st : Store) : HandlerOut :=
  match stateRawUserId state with
  | .error e => .thrown e st
  | .ok rawUid =>
    let userId := callbackUserId rawUid
    match code with
    | none => .resp (.send noCodeBody) st
    | some _ =>
      match jsGetField o.profileData "id".data with
      | .error _ => .resp (.error 500 linkedinErrorBody) st
      | .ok idOpt =>
        let platformUserId := match idOpt with
          | some v => v
          | none => Json.null
        match save o.now st
          { userId := userId
            platform := "linkedin".data
            platformUserId := platformUserId
            accessToken := Json.str o.access_token
            refreshToken := Json.null
            meta := some o.profileData
            expiresAt := plusNumber o.now o.expires_in } with
        | .error _ => .resp (.error 500 linkedinErrorBody) st
        | .ok st1 => .resp (.send linkedinSuccessBody) st1

/-- The store resulting from a handler outcome. -/
def outStore : HandlerOut → Store
  | .resp _ st => st
  | .thrown _ st => st

/-- Run a sequence of save operations, each with its call instant, from the
empty table; a thrown save leaves the store unchanged (better-sqlite3
throws from `prepare`, before touching any row). -/
def runSave (f : SaveFn) (ops : List (Int × SaveArgs)) : Store :=
  ops.foldl
    (fun st p =>
      match f p.1 st p.2 with
      | .ok st' => st'
      | .error _ => st)
    []

/-- At most one row per SQLite-equal `(user_id, platform)` pair. -/
def NoDupKeys (st : Store) : Prop :=
  List.Pairwise (fun p q => ¬ (jsonBEq p.1 q.1 = true ∧ p.2 = q.2))
    (st.map fun r => (r.user_id, r.platform))

/-! ## Claim C2 -/
def c2args1 : SaveArgs :=
  { userId := Json.str "u1".data
    platform := "facebook".data
    platformUserId := Json.str "fb-old".data
    accessToken := Json.str "tokenA".data
    refreshToken := Json.str "refreshA".data
    meta := some (Json.obj [("note".data, Json.str "first".data)])
    expiresAt := .int 111 }

def c2args2 : SaveArgs :=
  { userId := Json.str "u1".data
    platform := "facebook".data
    platformUserId := Json.str "fb-new".data
    accessToken := Json.str "tokenB".data
    refreshToken := Json.str "refreshB".data
    meta := some (Json.obj [("note".data, Json.str "second".data)])
    expiresAt := .int 222 }

/-! ## Claims C7 and C8: the Meta branch cases -/
/-- Provider responses for the zero-pages Meta exchange. -/
def c7oracle : MetaOracle :=
  { shortToken := "SHORT".data
    longToken := "LONGTOK".data
    longExpiresIn := some 5184000
    pagesData := some []
    connectedInstagram := none
    now := 1700000000 }

/-- The state parameter as built by `/auth/meta/start?user_id=u1`. -/
def c7state : Option Str := some (encodeState "u1".data)

/-- The single record the zero-pages branch hands to the store. -/
def c7row : Row :=
  { rowid := 1
    user_id := Json.str "u1".data
    platform := "facebook".data
    platform_user_id := Json.str "u1".data
    access_token := Json.str "LONGTOK".data
    refresh_token := Json.null
    meta := some (Json.obj [("note".data, Json.str "no-pages".data)])
    expires_at := some 1705184000
    created_at := 1700000000 }

/-- Provider responses for the linked-Instagram Meta exchange: one page
`PAGE1` with page token `PAGETOK` and connected Instagram account
`IG123`. -/
def c8oracle : MetaOracle :=
  { shortToken := "SHORT".data
    longToken := "LONGTOK".data
    longExpiresIn := some 5184000
    pagesData := some [{ id := "PAGE1".data
                         name := Json.str "My Page".data
                         access_token := "PAGETOK".data }]
    connectedInstagram := some "IG123".data
    now := 1700000000 }

/-- The facebook record of the linked-Instagram branch, keyed by the page
id and carrying the page access token. -/
def c8rowFb : Row :=
  { rowid := 1
    user_id := Json.str "u1".data
    platform := "facebook".data
    platform_user_id := Json.str "PAGE1".data
    access_token := Json.str "PAGETOK".data
    refresh_token := Json.null
    meta := some (Json.obj [("page_name".data, Json.str "My Page".data)])
    expires_at := none
    created_at := 1700000000 }

/-- The instagram record of the linked-Instagram branch, keyed by `IG123`
and carrying the same page access token. -/
def c8rowIg : Row :=
  { rowid := 2
    user_id := Json.str "u1".data
    platform := "instagram".data
    platform_user_id := Json.str "IG123".data
    access_token := Json.str "PAGETOK".data
    refresh_token := Json.null
    meta := some (Json.obj [("linked_page".data, Json.str "PAGE1".data)])
    expires_at := none
    created_at := 1700000000 }

/-- The record the zero-pages Meta branch writes when the state was absent:
the sentinel user `'unknown'`, and `platform_user_id` null (the raw
`parsedState.user_id` is undefined). -/
def c3rowUnknown : Row :=
  { rowid := 1
    user_id := Json.str "unknown".data
    platform := "facebook".data
    platform_user_id := Json.null
    access_token := Json.str "LONGTOK".data
    refresh_token := Json.null
    meta := some (Json.obj [("note".data, Json.str "no-pages".data)])
    expires_at := some 1705184000
    created_at := 1700000000 }

/-- A healthy YouTube exchange oracle. -/
def ytOracle : YoutubeOracle :=
  { access_token := "YTTOK".data
    refresh_token := Json.str "YTREFRESH".data
    expires_in := some 3599
    channel := some { id := Json.str "UC123".data
                      snippet := Json.obj [("title".data, Json.str "Chan".data)] }
    now := 1700000000 }

/-- A stored record for user `u1`, to witness that even a user with
existing records gets no data back on a bad secret. -/
def c5row : Row :=
  { rowid := 1
    user_id := Json.str "u1".data
    platform := "facebook".data
    platform_user_id := Json.str "fb".data
    access_token := Json.str "stored-access-token".data
    refresh_token := Json.null
    meta := none
    expires_at := none
    created_at := 0 }

/-! ## Verified properties -/

theorem hexDigitVal_hexChar : ∀ d, d < 16 → hexDigitVal (hexChar d) = some d := by decide

/-! ### Round trip of the URI component codec -/
theorem readPercentByte_percentByte (b : Nat) (hb : b < 256) (rest : Str) :
    readPercentByte (percentByte b ++ rest) = some (b, rest) := by
  have h1 := hexDigitVal_hexChar (b / 16) (by omega)
  have h2 := hexDigitVal_hexChar (b % 16) (by omega)
  simp only [percentByte, List.cons_append, List.nil_append, readPercentByte, if_pos rfl,
    h1, h2]
  have : 16 * (b / 16) + b % 16 = b := by omega
  rw [this]
  simp

theorem contByteVal_percentByte (b : Nat) (hb : 128 ≤ b ∧ b < 192) (rest : Str) :
    contByteVal (percentByte b ++ rest) = some (b, rest) := by
  simp only [contByteVal, readPercentByte_percentByte b (by omega) rest, if_pos hb]

theorem uriUnreserved_ne_percent {c : Char} (h : uriUnreserved c = true) : ¬ c = '%' := by
  intro he
  subst he
  exact absurd h (by decide)

theorem char_toNat_lt (c : Char) : c.toNat < 1114112 := by
  have h := c.valid
  unfold UInt32.isValidChar Nat.isValidChar at h
  show c.val.toNat < 1114112
  rcases h with h | h <;> omega

theorem char_valid_nat (c : Char) : c.toNat < 55296 ∨ 57343 < c.toNat := by
  have h := c.valid
  unfold UInt32.isValidChar Nat.isValidChar at h
  show c.val.toNat < 55296 ∨ 57343 < c.val.toNat
  rcases h with h | h
  · exact Or.inl h
  · exact Or.inr h.1

theorem percentByte_cons (b : Nat) (t : Str) :
    percentByte b ++ t = '%' :: hexChar (b / 16) :: hexChar (b % 16) :: t := rfl

theorem decodeOne_utf8_one (n : Nat) (h : n < 128) (t : Str) :
    decodeOne (percentByte n ++ t) = some (Char.ofNat n, t) := by
  rw [percentByte_cons]
  simp only [decodeOne, if_pos rfl]
  rw [← percentByte_cons, readPercentByte_percentByte n (by omega) t]
  simp only [if_pos h]
  simp

theorem decodeOne_utf8_two (n : Nat) (h1 : 128 ≤ n) (h2 : n < 2048) (t : Str) :
    decodeOne (percentByte (192 + n / 64) ++ (percentByte (128 + n % 64) ++ t))
      = some (Char.ofNat n, t) := by
  rw [percentByte_cons (192 + n / 64)]
  simp only [decodeOne, if_pos rfl]
  rw [← percentByte_cons, readPercentByte_percentByte (192 + n / 64) (by omega)]
  simp only [if_neg (by omega : ¬ 192 + n / 64 < 128),
    if_neg (by omega : ¬ 192 + n / 64 < 192), if_pos (by omega : 192 + n / 64 < 224)]
  rw [contByteVal_percentByte (128 + n % 64) (by omega) t]
  simp only
  rw [show (192 + n / 64 - 192) * 64 + (128 + n % 64 - 128) = n by omega]
  simp only [if_pos (by omega : 127 < n)]
  simp

theorem decodeOne_utf8_three (n : Nat) (h1 : 2048 ≤ n) (h2 : n < 65536)
    (hv : n < 55296 ∨ 57343 < n) (t : Str) :
    decodeOne (percentByte (224 + n / 4096) ++ (percentByte (128 + n / 64 % 64) ++
      (percentByte (128 + n % 64) ++ t))) = some (Char.ofNat n, t) := by
  rw [percentByte_cons (224 + n / 4096)]
  simp only [decodeOne, if_pos rfl]
  rw [← percentByte_cons, readPercentByte_percentByte (224 + n / 4096) (by omega)]
  simp only [if_neg (by omega : ¬ 224 + n / 4096 < 128),
    if_neg (by omega : ¬ 224 + n / 4096 < 192),
    if_neg (by omega : ¬ 224 + n / 4096 < 224), if_pos (by omega : 224 + n / 4096 < 240)]
  rw [contByteVal_percentByte (128 + n / 64 % 64) (by omega)]
  simp only
  rw [contByteVal_percentByte (128 + n % 64) (by omega) t]
  simp only
  rw [show (224 + n / 4096 - 224) * 4096 + (128 + n / 64 % 64 - 128) * 64 +
    (128 + n % 64 - 128) = n by omega]
  simp only [if_pos (by exact ⟨by omega, hv⟩ : 2047 < n ∧ (n < 55296 ∨ 57343 < n))]
  simp

theorem decodeOne_utf8_four (n : Nat) (h1 : 65536 ≤ n) (h2 : n < 1114112) (t : Str) :
    decodeOne (percentByte (240 + n / 262144) ++ (percentByte (128 + n / 4096 % 64) ++
      (percentByte (128 + n / 64 % 64) ++ (percentByte (128 + n % 64) ++ t))))
      = some (Char.ofNat n, t) := by
  rw [percentByte_cons (240 + n / 262144)]
  simp only [decodeOne, if_pos rfl]
  rw [← percentByte_cons, readPercentByte_percentByte (240 + n / 262144) (by omega)]
  simp only [if_neg (by omega : ¬ 240 + n / 262144 < 128),
    if_neg (by omega : ¬ 240 + n / 262144 < 192),
    if_neg (by omega : ¬ 240 + n / 262144 < 224),
    if_neg (by omega : ¬ 240 + n / 262144 < 240),
    if_pos (by omega : 240 + n / 262144 < 248)]
  rw [contByteVal_percentByte (128 + n / 4096 % 64) (by omega)]
  simp only
  rw [contByteVal_percentByte (128 + n / 64 % 64) (by omega)]
  simp only
  rw [contByteVal_percentByte (128 + n % 64) (by omega) t]
  simp only
  rw [show (240 + n / 262144 - 240) * 262144 + (128 + n / 4096 % 64 - 128) * 4096 +
    (128 + n / 64 % 64 - 128) * 64 + (128 + n % 64 - 128) = n by omega]
  simp only [if_pos (by omega : 65535 < n ∧ n < 1114112)]
  simp

theorem decodeOne_encodeChar (c : Char) (rest : Str) :
    decodeOne (encodeURIComponentChar c ++ rest) = some (c, rest) := by
  by_cases hu : uriUnreserved c
  · have hne : ¬ c = '%' := uriUnreserved_ne_percent hu
    simp only [encodeURIComponentChar, if_pos hu, List.cons_append, List.nil_append,
      decodeOne, if_neg hne]
  · have hlt := char_toNat_lt c
    have hvalid := char_valid_nat c
    simp only [encodeURIComponentChar, if_neg hu, utf8Bytes]
    by_cases h1 : c.toNat < 128
    · simp only [if_pos h1, List.map_cons, List.map_nil, List.flatten_cons, List.flatten_nil, List.append_nil]
      rw [decodeOne_utf8_one c.toNat h1 rest, Char.ofNat_toNat]
    · by_cases h2 : c.toNat < 2048
      · simp only [if_neg h1, if_pos h2, List.map_cons, List.map_nil,
          List.flatten_cons, List.flatten_nil, List.append_nil, List.append_assoc]
        rw [decodeOne_utf8_two c.toNat (by omega) h2 rest, Char.ofNat_toNat]
      · by_cases h3 : c.toNat < 65536
        · simp only [if_neg h1, if_neg h2, if_pos h3, List.map_cons, List.map_nil,
            List.flatten_cons, List.flatten_nil, List.append_nil, List.append_assoc]
          rw [decodeOne_utf8_three c.toNat (by omega) h3 hvalid rest, Char.ofNat_toNat]
        · simp only [if_neg h1, if_neg h2, if_neg h3, List.map_cons, List.map_nil,
            List.flatten_cons, List.flatten_nil, List.append_nil, List.append_assoc]
          rw [decodeOne_utf8_four c.toNat (by omega) hlt rest, Char.ofNat_toNat]

theorem encodeChar_ne_nil (c : Char) : encodeURIComponentChar c ≠ [] := by
  unfold encodeURIComponentChar
  by_cases hu : uriUnreserved c
  · simp [hu]
  · simp only [if_neg hu, utf8Bytes]
    by_cases h1 : c.toNat < 128
    · simp [h1, percentByte]
    · by_cases h2 : c.toNat < 2048
      · simp [h1, h2, percentByte]
      · by_cases h3 : c.toNat < 65536
        · simp [h1, h2, h3, percentByte]
        · simp [h1, h2, h3, percentByte]

theorem decodeLoop_encode (s : Str) :
    ∀ fuel, s.length ≤ fuel → decodeLoop fuel (encodeURIComponentFn s) = some s := by
  induction s with
  | nil =>
    intro fuel _
    simp [encodeURIComponentFn, decodeLoop]
  | cons c t ih =>
    intro fuel hfuel
    match fuel, hfuel with
    | fuel + 1, hfuel =>
      have hshape : encodeURIComponentFn (c :: t)
          = encodeURIComponentChar c ++ encodeURIComponentFn t := by
        simp [encodeURIComponentFn]
      rw [hshape]
      rcases he : encodeURIComponentChar c with _ | ⟨d, ds⟩
      · exact absurd he (encodeChar_ne_nil c)
      · rw [← he]
        have hcons : encodeURIComponentChar c ++ encodeURIComponentFn t
            = d :: (ds ++ encodeURIComponentFn t) := by rw [he]; rfl
        rw [hcons, decodeLoop, ← hcons, decodeOne_encodeChar c (encodeURIComponentFn t)]
        simp [ih fuel (by simp at hfuel; omega)]

/-- Length of the encoding dominates the length of the source, so the fuel
`s.length` used by `decodeURIComponentFn` suffices on encoder images. -/
theorem length_le_encode_length (s : Str) :
    s.length ≤ (encodeURIComponentFn s).length := by
  induction s with
  | nil => simp [encodeURIComponentFn]
  | cons c t ih =>
    have hshape : encodeURIComponentFn (c :: t)
        = encodeURIComponentChar c ++ encodeURIComponentFn t := by
      simp [encodeURIComponentFn]
    rw [hshape, List.length_append, List.length_cons]
    have : 1 ≤ (encodeURIComponentChar c).length := by
      rcases he : encodeURIComponentChar c with _ | ⟨d, ds⟩
      · exact absurd he (encodeChar_ne_nil c)
      · simp
    omega

/-- The decoder inverts `encodeURIComponent` exactly. -/
theorem decodeURIComponent_encodeURIComponent (s : Str) :
    decodeURIComponentFn (encodeURIComponentFn s) = some s :=
  decodeLoop_encode s _ (length_le_encode_length s)

theorem hexDigitVal_hexCharLower : ∀ d, d < 16 → hexDigitVal (hexCharLower d) = some d := by
  decide

/-! ### JSON.parse inverts the stringified state object -/
theorem jsonEscape_append_shape (c : Char) (t : Str) (x : Str) :
    jsonEscape (c :: t) ++ x = jsonEscapeChar c ++ (jsonEscape t ++ x) := by
  simp [jsonEscape]

theorem parseStringBody_escape (u : Str) : ∀ rest : Str,
    parseStringBody (jsonEscape u ++ ('"' :: rest)) = some (u, rest) := by
  induction u with
  | nil =>
    intro rest
    show parseStringBody ('"' :: rest) = some ([], rest)
    rw [parseStringBody.eq_def]
    simp
  | cons c t ih =>
    intro rest
    rw [jsonEscape_append_shape]
    by_cases h1 : c = '"'
    · subst h1
      rw [show jsonEscapeChar '"' = ['\\', '"'] from by simp [jsonEscapeChar],
        List.cons_append, List.cons_append, List.nil_append, parseStringBody.eq_def]
      simp [ih]
    · by_cases h2 : c = '\\'
      · subst h2
        rw [show jsonEscapeChar '\\' = ['\\', '\\'] from by simp [jsonEscapeChar],
          List.cons_append, List.cons_append, List.nil_append, parseStringBody.eq_def]
        simp [ih]
      · by_cases h3 : c.toNat = 8
        · have hc : Char.ofNat 8 = c := by rw [← h3, Char.ofNat_toNat]
          rw [show jsonEscapeChar c = ['\\', 'b'] by simp [jsonEscapeChar, h1, h2, h3],
            List.cons_append, List.cons_append, List.nil_append, parseStringBody.eq_def]
          simp [ih]
          exact hc
        · by_cases h4 : c.toNat = 9
          · have hc : Char.ofNat 9 = c := by rw [← h4, Char.ofNat_toNat]
            rw [show jsonEscapeChar c = ['\\', 't'] by
                simp [jsonEscapeChar, h1, h2, h3, h4],
              List.cons_append, List.cons_append, List.nil_append, parseStringBody.eq_def]
            simp [ih]
            exact hc
          · by_cases h5 : c.toNat = 10
            · have hc : Char.ofNat 10 = c := by rw [← h5, Char.ofNat_toNat]
              rw [show jsonEscapeChar c = ['\\', 'n'] by
                  simp [jsonEscapeChar, h1, h2, h3, h4, h5],
                List.cons_append, List.cons_append, List.nil_append,
                parseStringBody.eq_def]
              simp [ih]
              exact hc
            · by_cases h6 : c.toNat = 12
              · have hc : Char.ofNat 12 = c := by rw [← h6, Char.ofNat_toNat]
                rw [show jsonEscapeChar c = ['\\', 'f'] by
                    simp [jsonEscapeChar, h1, h2, h3, h4, h5, h6],
                  List.cons_append, List.cons_append, List.nil_append,
                  parseStringBody.eq_def]
                simp [ih]
                exact hc
              · by_cases h7 : c.toNat = 13
                · have hc : Char.ofNat 13 = c := by rw [← h7, Char.ofNat_toNat]
                  rw [show jsonEscapeChar c = ['\\', 'r'] by
                      simp [jsonEscapeChar, h1, h2, h3, h4, h5, h6, h7],
                    List.cons_append, List.cons_append, List.nil_append,
                    parseStringBody.eq_def]
                  simp [ih]
                  exact hc
                · by_cases h8 : c.toNat < 32
                  · rw [show jsonEscapeChar c = ['\\', 'u', '0', '0',
                        hexCharLower (c.toNat / 16), hexCharLower (c.toNat % 16)] by
                      simp [jsonEscapeChar, h1, h2, h3, h4, h5, h6, h7, h8]]
                    obtain ⟨m, hm, hcm⟩ : ∃ m, c.toNat = m ∧ Char.ofNat m = c :=
                      ⟨c.toNat, rfl, Char.ofNat_toNat c⟩
                    rw [hm] at h8
                    rw [hm, ← hcm]
                    have h0 : (0 : Nat) ≤ m := Nat.zero_le m
                    interval_cases m <;>
                      (rw [List.cons_append, List.cons_append, List.cons_append,
                        List.cons_append, List.cons_append, List.cons_append,
                        List.nil_append, parseStringBody.eq_def]
                       simp [ih, hexDigitVal, hexCharLower])
                  · rw [show jsonEscapeChar c = [c] by
                        simp [jsonEscapeChar, h1, h2, h3, h4, h5, h6, h7, h8],
                      List.cons_append, List.nil_append, parseStringBody.eq_def]
                    simp [ih, h1, h2, h8]

theorem stateImage_shape (u : Str) :
    stringifyUserState u
      = '\x7b' :: '"' :: 'u' :: 's' :: 'e' :: 'r' :: '_' :: 'i' :: 'd' :: '"' :: ':' ::
        '"' :: (jsonEscape u ++ ['"', '\x7d']) := by
  show '\x7b' :: '"' :: 'u' :: 's' :: 'e' :: 'r' :: '_' :: 'i' :: 'd' :: '"' :: ':' ::
      '"' :: ((jsonEscape u ++ ['"']) ++ ['\x7d']) = _
  simp

theorem parseVal_stateImage (u : Str) (f : Nat) :
    parseVal (f + 3) (stringifyUserState u)
      = some (Json.obj [("user_id".data, Json.str u)], []) := by
  have hkey : parseStringBody ('u' :: 's' :: 'e' :: 'r' :: '_' :: 'i' :: 'd' :: '"' ::
      ':' :: '"' :: (jsonEscape u ++ ['"', '\x7d']))
      = some ("user_id".data, ':' :: '"' :: (jsonEscape u ++ ['"', '\x7d'])) :=
    parseStringBody_escape ("user_id".data) (':' :: '"' :: (jsonEscape u ++ ['"', '\x7d']))
  have hval : parseStringBody (jsonEscape u ++ ['"', '\x7d']) = some (u, ['\x7d']) :=
    parseStringBody_escape u ['\x7d']
  rw [stateImage_shape]
  simp [parseVal, parseMembers, skipWs, isJsonWs, hkey, hval]

theorem jsonParse_stateImage (u : Str) :
    jsonParse (stringifyUserState u) = some (Json.obj [("user_id".data, Json.str u)]) := by
  have hlen : 2 ≤ (stringifyUserState u).length := by
    rw [stateImage_shape]; simp
  unfold jsonParse
  rw [show (stringifyUserState u).length + 1 = ((stringifyUserState u).length - 2) + 3 by
    omega]
  rw [parseVal_stateImage]
  simp [skipWs]

/-! ## Store lemmas -/
theorem saveAccount_always_errors (now : Int) (st : Store) (a : SaveArgs) :
    saveAccount now st a = .error .sqliteError := by
  simp [saveAccount, upsertSocialAccounts, socialAccountsUniqueKeys,
    saveAccountConflictTarget]

theorem updateFirstMatch_keys (a : SaveArgs) (st : Store) :
    (updateFirstMatch a st).map (fun r => (r.user_id, r.platform))
      = st.map (fun r => (r.user_id, r.platform)) := by
  induction st with
  | nil => rfl
  | cons r rs ih =>
    rw [updateFirstMatch]
    by_cases h : rowMatchesKey a r
    · simp [h, updateRow, ih]
    · simp [h, ih]

theorem saveAccountIntended_noDup (now : Int) (st : Store) (a : SaveArgs) (st' : Store)
    (hok : saveAccountIntended now st a = .ok st') (hst : NoDupKeys st) :
    NoDupKeys st' := by
  unfold saveAccountIntended upsertSocialAccounts at hok
  rw [if_pos (by simp [socialAccountsUniqueKeys, saveAccountConflictTarget])] at hok
  rcases hfind : st.find? (rowMatchesKey a) with _ | r
  · rw [hfind] at hok
    have hall := List.find?_eq_none.mp hfind
    injection hok with hok
    subst hok
    unfold NoDupKeys at hst ⊢
    rw [List.map_append, List.pairwise_append]
    refine ⟨hst, by simp, ?_⟩
    intro p hp q hq
    simp only [List.map_cons, List.map_nil, List.mem_singleton] at hq
    subst hq
    simp only [List.mem_map] at hp
    obtain ⟨r, hr, rfl⟩ := hp
    have := hall r hr
    simp only [rowMatchesKey, Bool.and_eq_true, beq_iff_eq] at this
    simp only [insertRow]
    intro hcontra
    exact this ⟨hcontra.1, hcontra.2⟩
  · rw [hfind] at hok
    injection hok with hok
    subst hok
    unfold NoDupKeys at hst ⊢
    rw [updateFirstMatch_keys]
    exact hst

theorem runSave_intended_noDup (ops : List (Int × SaveArgs)) :
    NoDupKeys (runSave saveAccountIntended ops) := by
  have general : ∀ (ops : List (Int × SaveArgs)) (st : Store), NoDupKeys st →
      NoDupKeys (ops.foldl
        (fun st p =>
          match saveAccountIntended p.1 st p.2 with
          | .ok st' => st'
          | .error _ => st)
        st) := by
    intro ops
    induction ops with
    | nil => intro st h; exact h
    | cons p rest ih =>
      intro st h
      simp only [List.foldl_cons]
      rcases hsave : saveAccountIntended p.1 st p.2 with e | st'
      · exact ih st h
      · exact ih st' (saveAccountIntended_noDup p.1 st p.2 st' hsave h)
  exact general ops [] (by simp [NoDupKeys])

theorem runSave_real_empty (ops : List (Int × SaveArgs)) :
    runSave saveAccount ops = [] := by
  have general : ∀ (ops : List (Int × SaveArgs)),
      (ops.foldl
        (fun st p =>
          match saveAccount p.1 st p.2 with
          | .ok st' => st'
          | .error _ => st)
        ([] : Store)) = [] := by
    intro ops
    induction ops with
    | nil => rfl
    | cons p rest ih =>
      simp only [List.foldl_cons, saveAccount_always_errors]
      exact ih
  exact general ops

/-! ## Claim C1 -/
/-- Claim C1 (code bug).  The claim says every successful `saveAccount`
upsert keeps at most one record per `(user_id, platform)` pair, replacing
via the conflict clause.  The schema of `social_accounts` declares no
unique constraint on `(user_id, platform)`, so SQLite rejects the prepared
statement and every `saveAccount` call throws: the real store never
changes (conjuncts 1 and 2).  Conjunct 3 proves the claimed invariant for
the statement run against the schema its own `ON CONFLICT` clause
presupposes, showing the claim captures the code's intent. -/
theorem C1_upsert_unique_pair :
    (∀ (now : Int) (st : Store) (a : SaveArgs), saveAccount now st a = .error .sqliteError)
    ∧ (∀ ops : List (Int × SaveArgs), runSave saveAccount ops = [])
    ∧ (∀ ops : List (Int × SaveArgs), NoDupKeys (runSave saveAccountIntended ops)) :=
  ⟨saveAccount_always_errors, runSave_real_empty, runSave_intended_noDup⟩

/-- Claim C2 (code bug).  Calling `saveAccount` twice with the same
`(user_id, platform)` and different token values: in reality the first call
already throws (conjunct 1; the statement is rejected because the schema
has no unique constraint on the conflict target), so no record at all
exists afterwards.  Conjunct 2 shows the intended upsert (the schema the
conflict clause presupposes) produces exactly what the claim describes:
one record with the second call's `platform_user_id`, tokens, metadata and
expiry, and the first call's `created_at`. -/
theorem C2_upsert_replacement :
    (saveAccount 100 [] c2args1 = .error .sqliteError)
    ∧ (runSave saveAccountIntended [(100, c2args1), (200, c2args2)]
        = [{ rowid := 1
             user_id := Json.str "u1".data
             platform := "facebook".data
             platform_user_id := Json.str "fb-new".data
             access_token := Json.str "tokenB".data
             refresh_token := Json.str "refreshB".data
             meta := some (Json.obj [("note".data, Json.str "second".data)])
             expires_at := some 222
             created_at := 100 }]) :=
  ⟨rfl, rfl⟩

/-- Claim C7 (code bug).  In the zero-pages Meta callback the branch logic
produces exactly the claimed single facebook record (long-lived token,
computed expiry, `{note: 'no-pages'}` metadata) and no instagram record —
conjunct 2, run with the upsert as its conflict clause intends it.  But the
real `saveAccount` throws (no unique constraint backs the conflict
target), so the real handler persists nothing and answers 500 instead
(conjunct 1). -/
theorem C7_meta_zero_pages :
    (metaCallback saveAccount (some "c".data) c7state c7oracle []
      = .resp (.error 500 metaErrorBody) [])
    ∧ (metaCallback saveAccountIntended (some "c".data) c7state c7oracle []
      = .resp (.send metaNoPagesBody) [c7row]) :=
  ⟨rfl, rfl⟩

/-- Claim C8 (code bug).  With one page whose connected Instagram account
is `IG123`, the branch logic produces exactly two records — facebook keyed
by the page id and instagram keyed by `IG123`, both carrying the page
access token — shown by conjunct 2 against the upsert as its conflict
clause intends it.  The real `saveAccount` throws on the first save
(missing unique constraint), so the real handler persists nothing and
answers 500 (conjunct 1). -/
theorem C8_meta_linked_instagram :
    (metaCallback saveAccount (some "c".data) c7state c8oracle []
      = .resp (.error 500 metaErrorBody) [])
    ∧ (metaCallback saveAccountIntended (some "c".data) c7state c8oracle []
      = .resp (.send (metaSuccessBody (Json.str "u1".data) (some "IG123".data)))
          [c8rowFb, c8rowIg]) :=
  ⟨rfl, rfl⟩

/-! ## Claim C3: state fallback -/
/-- Claim C3 counterexample.  The claim says an undecodable state never
makes the callback fail.  At state `"abc"` (present, not JSON) the Meta
callback — code present, provider responses all healthy — answers the
generic 500 error instead of completing: `JSON.parse` throws before the
`'unknown'` fallback can apply. -/
theorem C3_counterexample :
    metaCallback saveAccount (some "c".data) (some "abc".data) c7oracle []
      = .resp (.error 500 metaErrorBody) [] := rfl

/-- Claim C3 (corrected).  What the code actually does with the state
parameter: (1) an absent state decodes to the sentinel `'unknown'`;
(2) with an absent state the Meta callback completes the exchange normally
as user `'unknown'` (run with the upsert as its conflict clause intends
it, persistence itself being broken per C1); (3) a state parse failure
makes the Meta callback answer 500 — its parse sits inside the `try`;
(4) in the YouTube callback the parse sits before the `try`, so the
exception escapes the handler; (5) a present non-JSON state such as
`"abc"` is exactly such a parse failure. -/
theorem C3_state_handling :
    (decodeStateUserId none = .ok (Json.str "unknown".data))
    ∧ (metaCallback saveAccountIntended (some "c".data) none c7oracle []
        = .resp (.send metaNoPagesBody) [c3rowUnknown])
    ∧ (∀ (save : SaveFn) (code : Option Str) (o : MetaOracle) (st : Store) (e : JsErr)
        (state : Option Str), stateRawUserId state = .error e →
          metaCallback save code state o st = .resp (.error 500 metaErrorBody) st)
    ∧ (∀ (save : SaveFn) (code : Option Str) (o : YoutubeOracle) (st : Store) (e : JsErr)
        (state : Option Str), stateRawUserId state = .error e →
          youtubeCallback save code state o st = .thrown e st)
    ∧ (stateRawUserId (some "abc".data) = .error JsErr.syntaxError) := by
  refine ⟨rfl, rfl, ?_, ?_, rfl⟩
  · intro save code o st e state h
    unfold metaCallback
    rw [h]
  · intro save code o st e state h
    unfold youtubeCallback
    rw [h]

/-- Claim C3 witness: the YouTube-callback conjunct applied at the concrete
undecodable state `"abc"`. -/
theorem C3_witness :
    youtubeCallback saveAccount (some "c".data) (some "abc".data) ytOracle []
      = .thrown JsErr.syntaxError [] :=
  C3_state_handling.2.2.2.1 saveAccount (some "c".data) ytOracle [] JsErr.syntaxError
    (some "abc".data) rfl

/-! ## Claim C9: callbacks without a code -/
/-- Claim C9 counterexample.  The claim says every no-code callback returns
a benign informational response.  With no code but an undecodable state
`"abc"`, the Meta callback answers the 500 error: the state parse runs
before the no-code guard. -/
theorem C9_counterexample :
    metaCallback saveAccount none (some "abc".data) c7oracle []
      = .resp (.error 500 metaErrorBody) [] := rfl

/-- Claim C9 (corrected).  For every provider, a callback without a code
leaves the store untouched (conjuncts 1-5, unconditionally — the state
parse precedes every save).  The benign informational response, however,
only comes when the state decode does not throw (conjuncts 6-10); an
undecodable state fails the request before the no-code guard is
reached. -/
theorem C9_no_code :
    (∀ (save : SaveFn) (state : Option Str) (o : MetaOracle) (st : Store),
        outStore (metaCallback save none state o st) = st)
    ∧ (∀ (save : SaveFn) (state : Option Str) (o : YoutubeOracle) (st : Store),
        outStore (youtubeCallback save none state o st) = st)
    ∧ (∀ (save : SaveFn) (state : Option Str) (o : XOracle) (st : Store),
        outStore (xCallback save none state o st) = st)
    ∧ (∀ (save : SaveFn) (state : Option Str) (o : PinterestOracle) (st : Store),
        outStore (pinterestCallback save none state o st) = st)
    ∧ (∀ (save : SaveFn) (state : Option Str) (o : LinkedinOracle) (st : Store),
        outStore (linkedinCallback save none state o st) = st)
    ∧ (∀ (save : SaveFn) (state : Option Str) (o : MetaOracle) (st : Store)
        (rawUid : Option Json), stateRawUserId state = .ok rawUid →
          metaCallback save none state o st = .resp (.send noCodeProvidedBody) st)
    ∧ (∀ (save : SaveFn) (state : Option Str) (o : YoutubeOracle) (st : Store)
        (rawUid : Option Json), stateRawUserId state = .ok rawUid →
          youtubeCallback save none state o st = .resp (.send noCodeProvidedBody) st)
    ∧ (∀ (save : SaveFn) (state : Option Str) (o : XOracle) (st : Store)
        (rawUid : Option Json), stateRawUserId state = .ok rawUid →
          xCallback save none state o st = .resp (.send noCodeBody) st)
    ∧ (∀ (save : SaveFn) (state : Option Str) (o : PinterestOracle) (st : Store)
        (rawUid : Option Json), stateRawUserId state = .ok rawUid →
          pinterestCallback save none state o st = .resp (.send noCodeBody) st)
    ∧ (∀ (save : SaveFn) (state : Option Str) (o : LinkedinOracle) (st : Store)
        (rawUid : Option Json), stateRawUserId state = .ok rawUid →
          linkedinCallback save none state o st = .resp (.send noCodeBody) st) := by
  refine ⟨?_, ?_, ?_, ?_, ?_, ?_, ?_, ?_, ?_, ?_⟩
  · intro save state o st
    rcases h : stateRawUserId state with e | rawUid <;> simp [metaCallback, h, outStore]
  · intro save state o st
    rcases h : stateRawUserId state with e | rawUid <;>
      simp [youtubeCallback, h, outStore]
  · intro save state o st
    rcases h : stateRawUserId state with e | rawUid <;> simp [xCallback, h, outStore]
  · intro save state o st
    rcases h : stateRawUserId state with e | rawUid <;>
      simp [pinterestCallback, h, outStore]
  · intro save state o st
    rcases h : stateRawUserId state with e | rawUid <;>
      simp [linkedinCallback, h, outStore]
  · intro save state o st rawUid h
    unfold metaCallback
    rw [h]
  · intro save state o st rawUid h
    unfold youtubeCallback
    rw [h]
  · intro save state o st rawUid h
    unfold xCallback
    rw [h]
  · intro save state o st rawUid h
    unfold pinterestCallback
    rw [h]
  · intro save state o st rawUid h
    unfold linkedinCallback
    rw [h]

/-- Claim C9 witness: the Meta conjunct applied at an absent state. -/
theorem C9_witness :
    metaCallback saveAccount none none c7oracle []
      = .resp (.send noCodeProvidedBody) [] :=
  C9_no_code.2.2.2.2.2.1 saveAccount none c7oracle [] none rfl

/-! ## Claim C4: expiry computation -/
/-- Claim C4 counterexample.  The claim says a reported duration `D` always
yields a stored expiry of `T + D`.  The Meta long-lived expiry guard tests
JavaScript truthiness, so a reported `expires_in` of `0` at `T = 1000`
stores an absent expiry rather than `1000 + 0`. -/
theorem C4_counterexample :
    sqlBindNumber (metaExpiresAt 1000 (some 0)) = none
    ∧ ¬ sqlBindNumber (metaExpiresAt 1000 (some 0)) = some (1000 + 0) := by decide

/-- Claim C4 (corrected).  The expiry actually stored with a record, per
flow: the unguarded flows (YouTube, X, Pinterest, LinkedIn) compute
`T + Number(expires_in)`, giving `T + D` for a reported `D` and NaN — which
SQLite stores as NULL, hence absent — for a missing one; the Meta
long-lived flow stores `T + D` for a reported nonzero `D` and an absent
expiry for a missing or zero `D`; moreover the page-keyed facebook and
instagram records of the Meta page branch always store an absent expiry,
even when the long-lived exchange did report a duration (last
conjunct). -/
theorem C4_expiry :
    ∀ (T D : Int),
      (sqlBindNumber (plusNumber T (some D)) = some (T + D))
      ∧ (plusNumber T none = JsNumber.nan ∧ sqlBindNumber JsNumber.nan = none)
      ∧ (D ≠ 0 → sqlBindNumber (metaExpiresAt T (some D)) = some (T + D))
      ∧ (sqlBindNumber (metaExpiresAt T (some 0)) = none)
      ∧ (sqlBindNumber (metaExpiresAt T none) = none)
      ∧ ((outStore (metaCallback saveAccountIntended (some "c".data) c7state c8oracle
            [])).map Row.expires_at = [none, none]) := by
  intro T D
  refine ⟨rfl, ⟨rfl, rfl⟩, ?_, ?_, rfl, rfl⟩
  · intro hD
    simp [metaExpiresAt, sqlBindNumber, hD]
  · simp [metaExpiresAt, sqlBindNumber]

/-- Claim C4 witness: a YouTube-style reported duration of 3599 at
T = 1700000000, and a Meta nonzero duration. -/
theorem C4_witness :
    sqlBindNumber (plusNumber 1700000000 (some 3599)) = some 1700003599
    ∧ sqlBindNumber (metaExpiresAt 1700000000 (some 5184000)) = some 1705184000 :=
  ⟨(C4_expiry 1700000000 3599).1,
   (C4_expiry 1700000000 5184000).2.2.1 (by decide)⟩

/-! ## Claim C5: exposure endpoint rejects bad secrets -/
/-- Claim C5 (confirmed).  Whenever the presented secret — the
Authorization header after the `'Bearer '` strip, absent when no header was
sent — is not the configured service token, the endpoint answers 401
Unauthorized, whose body is the fixed `{error: 'Unauthorized'}` object and
carries no credential data; this holds for every user id and every store
contents, including stores holding records for that user. -/
theorem C5_unauthorized (t : Str) (authHeader : Option Str) (userId : Str) (st : Store)
    (h : authHeader.map (replaceFirst ("Bearer " : String).data []) ≠ some t) :
    credentialsHandler (some t) authHeader userId st = CredResponse.unauthorized := by
  unfold credentialsHandler
  rcases authHeader with _ | hd
  · rfl
  · simp only [Option.map_some']
    by_cases hemp : (replaceFirst ("Bearer " : String).data [] hd).isEmpty
    · simp [hemp]
    · simp only [hemp, Bool.false_eq_true, if_false]
      rw [if_neg]
      simp only [Option.map_some'] at h
      intro hcontra
      exact h (by rw [Option.some_inj] at hcontra ⊢; exact hcontra.symm)

/-- Claim C5 witness: wrong bearer secret, user with an existing record. -/
theorem C5_witness :
    credentialsHandler (some "S3CRET".data) (some "Bearer wrong".data) "u1".data [c5row]
      = CredResponse.unauthorized :=
  C5_unauthorized "S3CRET".data (some "Bearer wrong".data) "u1".data [c5row] (by decide)

/-! ## Claim C10: exact characterisation of the secret check -/
/-- Claim C10 (confirmed).  The endpoint authorizes exactly when the
Authorization header, after removing its first occurrence of the substring
`'Bearer '`, is non-empty and equal to the configured service token
(conjunct 1); in particular a header carrying the bare secret with no
`'Bearer '` prefix is accepted, shown concretely in conjunct 2. -/
theorem C10_auth_characterization :
    (∀ (t : Str) (hd : Str) (userId : Str) (st : Store),
        credentialsHandler (some t) (some hd) userId st ≠ CredResponse.unauthorized
          ↔ (replaceFirst ("Bearer " : String).data [] hd ≠ []
             ∧ replaceFirst ("Bearer " : String).data [] hd = t))
    ∧ (credentialsHandler (some "tok123".data) (some "tok123".data) "u".data []
        = CredResponse.ok "u".data []) := by
  constructor
  · intro t hd userId st
    unfold credentialsHandler
    simp only [Option.map_some']
    constructor
    · intro hne
      by_cases hemp : (replaceFirst ("Bearer " : String).data [] hd).isEmpty
      · simp [hemp] at hne
      · by_cases heq : (some t : Option Str) = some (replaceFirst ("Bearer " : String).data [] hd)
        · rw [Option.some_inj] at heq
          exact ⟨by simpa [List.isEmpty_iff] using hemp, heq.symm⟩
        · simp [hemp, heq] at hne
    · rintro ⟨hne, rfl⟩
      have hemp : (replaceFirst ("Bearer " : String).data [] hd).isEmpty = false := by
        simpa [List.isEmpty_iff] using hne
      simp [hemp]
  · rfl

/-! ## Claim C6: state round trip -/
/-- Claim C6 (confirmed).  For every valid (non-empty) user identifier `u`,
the callback decode — `JSON.parse(decodeURIComponent(state)).user_id ||
'unknown'` — applied to the start-side encode —
`encodeURIComponent(JSON.stringify({user_id: u}))` — recovers exactly
`u`. -/
theorem C6_state_roundtrip (u : Str) (hu : u ≠ []) :
    decodeStateUserId (some (encodeState u)) = .ok (Json.str u) := by
  have hU : u.isEmpty = false := by
    cases u
    · exact absurd rfl hu
    · rfl
  have hne : (encodeState u).isEmpty = false := by
    have h1 : 2 ≤ (stringifyUserState u).length := by rw [stateImage_shape]; simp
    have h2 := length_le_encode_length (stringifyUserState u)
    rcases h : encodeState u with _ | ⟨c, cs⟩
    · exfalso
      unfold encodeState at h
      rw [h] at h2
      simp only [List.length_nil, Nat.le_zero, List.length_eq_zero] at h2
      rw [h2] at h1
      simp at h1
    · rfl
  have hparse : parseStateParam (some (encodeState u))
      = .ok (Json.obj [("user_id".data, Json.str u)]) := by
    unfold parseStateParam
    simp only [hne, Bool.false_eq_true, if_false]
    rw [show encodeState u = encodeURIComponentFn (stringifyUserState u) from rfl]
    simp only [decodeURIComponent_encodeURIComponent, jsonParse_stateImage]
  have hlook : lookupField [("user_id".data, Json.str u)] "user_id".data
      = some (Json.str u) := rfl
  simp [decodeStateUserId, stateRawUserId, hparse, jsGetField, hlook,
    callbackUserId, jsOr, jsTruthy, hU]

/-- Claim C6 witness at the identifier `user-42`. -/
theorem C6_witness :
    ("user-42".data : Str) ≠ []
    ∧ decodeStateUserId (some (encodeState "user-42".data)) = .ok (Json.str "user-42".data) :=
  ⟨by decide, C6_state_roundtrip "user-42".data (by decide)⟩

end OAuthBackend

